import Mathlib

/-!
Verification of the multi-agent orchestration core of the Quantum-Edge
portfolio backend.  The Python sources are shallowly embedded: dictionaries
with optional numeric fields become structures over `Option ℚ`, float
arithmetic becomes exact rational arithmetic, `async` fan-out becomes explicit
outcome values, and the per-agent helper methods become pure Lean functions
mirroring the corresponding Python function bodies line by line.
-/

/-! ### ASCII case mapping (Python `str.upper` / `str.lower` on ASCII data) -/
/-- ASCII upper-casing of one character, as Python `str.upper` acts on the
ASCII symbols used by the agents. -/
def upperChar (c : Char) : Char :=
  if 'a' ≤ c ∧ c ≤ 'z' then Char.ofNat (c.toNat - 32) else c

/-- ASCII upper-casing of a string (`symbol.upper()` in the agents). -/
def upper (s : String) : String := ⟨s.data.map upperChar⟩

/-- ASCII lower-casing of one character, as Python `str.lower` acts on the
ASCII analysis text scanned by `_extract_recommendation`. -/
def lowerChar (c : Char) : Char :=
  if 'A' ≤ c ∧ c ≤ 'Z' then Char.ofNat (c.toNat + 32) else c

/-- ASCII lower-casing of a string (`analysis.lower()`). -/
def lower (s : String) : String := ⟨s.data.map lowerChar⟩

/-- Python's substring test `needle in hay`. -/
def strContains (hay needle : String) : Bool :=
  decide (needle.data <:+: hay.data)

/-! ### Agent memory (`BaseAgent.add_to_memory`,
`src/finance-copilot/backend/agents/base_agent.py` lines 98-106).

The timestamp/agent-name enrichment of the entry is irrelevant to the list
dynamics, so an entry is an opaque `α`; the list mechanics (`append`, the
`> 100` bound check, the `memory[-50:]` trim) are verbatim. -/
def add_to_memory {α : Type} (memory : List α) (entry : α) : List α :=
  let m := memory ++ [entry]
  if 100 < m.length then m.drop (m.length - 50) else m

/-! ### Recommendation extraction (`EquityResearchAgent._extract_recommendation`,
`src/backend/agents/equity_agent.py` lines 240-253). -/
def extract_recommendation (analysis : String) : String :=
  let analysis_lower := lower analysis
  if strContains analysis_lower "strong buy" then "strong_buy"
  else if strContains analysis_lower "strong sell" then "strong_sell"
  else if strContains analysis_lower "buy" then "buy"
  else if strContains analysis_lower "sell" then "sell"
  else "hold"

/-! ### Numeric helpers

Python's `round(x, n)` rounds half to even; float values are embedded as exact
rationals. -/
/-- Round half to even, Python's `round` on an exact value. -/
def roundHalfEven (x : ℚ) : ℤ :=
  let f := ⌊x⌋
  let r := x - f
  if r < 1 / 2 then f
  else if 1 / 2 < r then f + 1
  else if f % 2 = 0 then f else f + 1

/-- Python `round(x, 2)`. -/
def round2 (x : ℚ) : ℚ := (roundHalfEven (x * 100) : ℚ) / 100

/-- Python `round(x, 1)`. -/
def round1 (x : ℚ) : ℚ := (roundHalfEven (x * 10) : ℚ) / 10

/-- Python truthiness of an optional numeric dict value: a missing key or a
zero value is falsy. -/
def truthy (o : Option ℚ) : Bool :=
  match o with
  | none => false
  | some x => decide (x ≠ 0)

/-! ### Equity data records

`price_data` and `fundamentals` are dicts returned by the market-data
provider; the agents read them with `.get(key)` / `.get(key, 0)`, so each
field is an `Option ℚ` (absent key ↦ `none`).  Field names follow the local
variable names used in the agent bodies (`pe` reads the P/E-ratio key, `pb`
the P/B-ratio key). -/
structure PriceData where
  price : Option ℚ

structure Fundamentals where
  pe : Option ℚ
  pb : Option ℚ
  eps : Option ℚ
  revenue : Option ℚ
  profit_margin : Option ℚ

/-! ### Confidence score (`EquityResearchAgent._calculate_confidence`,
`src/backend/agents/equity_agent.py` lines 255-271). -/
def calculate_confidence (fundamentals : Fundamentals)
    (price_data : PriceData) : ℚ :=
  let score : ℚ := 1 / 2
  let score := if truthy fundamentals.pe then score + 1 / 10 else score
  let score := if truthy fundamentals.revenue then score + 1 / 10 else score
  let score := if truthy fundamentals.eps then score + 1 / 10 else score
  let score := if truthy price_data.price then score + 1 / 10 else score
  let score := if truthy fundamentals.profit_margin then score + 1 / 10
    else score
  min score 1

/-! ### Target price (`EquityResearchAgent._estimate_target_price`,
`src/backend/agents/equity_agent.py` lines 273-285). -/
def estimate_target_price (price_data : PriceData)
    (fundamentals : Fundamentals) : Option ℚ :=
  let current_price := price_data.price.getD 0
  let pe := fundamentals.pe.getD 0
  if current_price = 0 ∨ pe = 0 then none
  else
    let fair_pe : ℚ := 18
    let implied_price :=
      if pe ≠ 0 then current_price * (fair_pe / pe) else current_price
    some (round2 implied_price)

/-! ### Overall risk score (`RiskProfilingAgent._calculate_risk_score`,
`src/finance-copilot/backend/agents/risk_agent.py` lines 294-324).

The three dict arguments are read with `.get` and the documented defaults, so
the embedding takes the read values as optional inputs. -/
def calculate_risk_score (estimated_volatility : Option ℚ)
    (diversification_score : Option ℚ)
    (concentration_risk : Option String) : ℚ :=
  let score : ℚ := 5
  let vol := estimated_volatility.getD 15
  let score :=
    if 30 < vol then score + 2
    else if 20 < vol then score + 1
    else if vol < 10 then score - 1
    else score
  let div_score := diversification_score.getD 5
  let score := score + (5 - div_score) / 2
  let score :=
    if concentration_risk = some "high" then score + 2
    else if concentration_risk = some "moderate" then score + 1
    else score
  max 1 (min 10 (round1 score))

/-! ### Orchestrator (`AgentOrchestrator.analyze_portfolio`,
`src/backend/agents/orchestrator.py` lines 86-143).

The five per-holding equity coroutines are gathered with
`return_exceptions=True`, so each holding yields an `Outcome` value (a result
or a captured exception).  The four portfolio-wide coroutines (news, market
overview, risk, health) are awaited sequentially inside one `try`; if any of
them raises, the `except` branch replaces *all* results — including the
already-gathered equity results — with empty defaults, and the function still
returns a composite report.  Section payloads are dicts, embedded as
association lists; the `portfolio_id`/`analysis_date`/`recommendations`
fields of the composite dict do not interact with the failure logic and are
elided. -/
/-- Result of one gathered coroutine: a value, or an exception captured by
`asyncio.gather(..., return_exceptions=True)` (respectively raised by a
sequentially awaited coroutine). -/
inductive Outcome (α : Type) where
  | ok (a : α)
  | exn
  deriving DecidableEq

/-- `not isinstance(r, Exception)` projection used by the holdings filter. -/
def Outcome.toOption {α : Type} : Outcome α → Option α
  | .ok a => some a
  | .exn => none

/-- A Python dict payload, as an association list. -/
abbrev Dictionary : Type := List (String × String)

/-- The composite analysis dict built at lines 124-137 (failure-relevant
fields). -/
structure PortfolioAnalysisReport (α : Type) where
  holdings_analysis : List α
  news_summary : Dictionary
  market_overview : Dictionary
  risk_assessment : Dictionary
  portfolio_health : Dictionary

/-- `analyze_portfolio` for a found portfolio, over the outcomes of the
launched coroutines: `symbols` are the portfolio's holding symbols (truncated
to the first 5 for equity analysis), `equity` gives each holding's gathered
outcome, and the last four arguments are the outcomes of the sequentially
awaited news/market/risk/health coroutines. -/
def analyze_portfolio {α : Type} (symbols : List String)
    (equity : String → Outcome α)
    (news market risk health : Outcome Dictionary) :
    PortfolioAnalysisReport α :=
  let equity_results := (symbols.take 5).map equity
  match news, market, risk, health with
  | .ok n, .ok m, .ok r, .ok h =>
      { holdings_analysis := equity_results.filterMap Outcome.toOption
        news_summary := n
        market_overview := m
        risk_assessment := r
        portfolio_health := h }
  | _, _, _, _ =>
      { holdings_analysis := ([] : List (Outcome α)).filterMap Outcome.toOption
        news_summary := []
        market_overview := []
        risk_assessment := []
        portfolio_health := [] }

/-! ### Diversification assessment (`RiskProfilingAgent._assess_diversification`
and `_get_diversification_recommendation`,
`src/finance-copilot/backend/agents/risk_agent.py` lines 224-256 and 365-374).

Each holding contributes its `current_value` dict entry (optional, default 0);
`total_value` is the portfolio's total-value field. -/
/-- The HHI computed at lines 232-237: the sum of squared percentage value
weights. -/
def portfolio_hhi (holdings : List (Option ℚ)) (total_value : ℚ) : ℚ :=
  let weights := holdings.map
    (fun h => if 0 < total_value then h.getD 0 / total_value * 100 else 0)
  ((weights.map (fun w => w ^ 2)).sum)

def diversification_recommendation (num_holdings : ℕ) (hhi : ℚ) : String :=
  if num_holdings < 5 then
    "Add more holdings (recommend 10-15) for better diversification"
  else if 2500 < hhi then "Rebalance to more equal weights across holdings"
  else if 1500 < hhi then "Consider reducing position sizes in top holdings"
  else "Diversification is adequate"

/-- The diversification dict returned at lines 250-256. -/
structure Diversification where
  num_holdings : ℕ
  hhi_index : ℚ
  diversification_level : String
  diversification_score : ℚ
  recommendation : String

def assess_diversification (holdings : List (Option ℚ))
    (total_value : ℚ) : Diversification :=
  let num_holdings := holdings.length
  let hhi := portfolio_hhi holdings total_value
  let level_score : String × ℚ :=
    if hhi < 1000 then ("well_diversified", 9)
    else if hhi < 2500 then ("moderately_diversified", 6)
    else ("concentrated", 3)
  { num_holdings := num_holdings
    hhi_index := round2 hhi
    diversification_level := level_score.1
    diversification_score := level_score.2
    recommendation := diversification_recommendation num_holdings hhi }

/-! ### Trend determination (`MarketTrendAgent._calculate_indicators` and
`MarketTrendAgent._determine_trend`,
`src/backend/agents/market_agent.py` lines 212-266 and 303-349).

`_determine_trend` reads only the close prices and the `sma_20`, `sma_50`
and `rsi` entries of the indicator dict, so the embedding carries the
close-derived indicators (the volume and MACD entries are never read by it).
A missing dict entry is `none`; `.get(key, default)` becomes `Option.getD`. -/
/-- Trailing n-sample simple moving average (`sum(prices[-n:]) / n`,
present only when at least `n` samples exist), rounded as in the source. -/
def sma_of (n : ℕ) (prices : List ℚ) : Option ℚ :=
  if n ≤ prices.length then
    some (round2 ((prices.drop (prices.length - n)).sum / (n : ℚ)))
  else none

/-- Simplified RSI-14 of lines 233-242: average gain of the last 14 price
changes over average loss, with `0.0001` substituted for a zero average
loss. -/
def rsi_of (prices : List ℚ) : Option ℚ :=
  if 15 ≤ prices.length then
    let changes := List.zipWith (fun a b => a - b) (prices.drop 1) prices
    let recent := changes.drop (changes.length - 14)
    let gains := recent.filter (fun c => 0 < c)
    let losses := (recent.filter (fun c => c < 0)).map (fun c => -c)
    let avg_gain := if gains ≠ [] then gains.sum / 14 else 0
    let avg_loss := if losses ≠ [] then losses.sum / 14 else 1 / 10000
    let rs := avg_gain / avg_loss
    some (round2 (100 - 100 / (1 + rs)))
  else none

/-- The close-derived part of the indicator dict. -/
structure Indicators where
  sma_20 : Option ℚ
  sma_50 : Option ℚ
  sma_200 : Option ℚ
  rsi : Option ℚ

def calculate_indicators (prices : List ℚ) : Indicators :=
  { sma_20 := sma_of 20 prices
    sma_50 := sma_of 50 prices
    sma_200 := sma_of 200 prices
    rsi := rsi_of prices }

/-- `_determine_trend` verbatim: fewer than 20 samples is `sideways`;
otherwise four bullish/bearish signal counters are accumulated (price vs
SMA-20, price vs SMA-50, RSI vs 50, 20-bar change vs ±5%) and 3+ on a side
decides the trend. -/
def determine_trend (historical : List ℚ) (indicators : Indicators) :
    String :=
  if historical.length < 20 then "sideways"
  else
    let prices := historical
    let current := prices.getD (prices.length - 1) 0
    let sma_20 := indicators.sma_20.getD current
    let sma_50 := indicators.sma_50.getD current
    let rsi := indicators.rsi.getD 50
    let bullish_signals : ℕ := 0
    let bearish_signals : ℕ := 0
    let bullish_signals :=
      if sma_20 < current then bullish_signals + 1 else bullish_signals
    let bearish_signals :=
      if sma_20 < current then bearish_signals else bearish_signals + 1
    let bullish_signals :=
      if sma_50 < current then bullish_signals + 1 else bullish_signals
    let bearish_signals :=
      if sma_50 < current then bearish_signals else bearish_signals + 1
    let bullish_signals :=
      if 50 < rsi then bullish_signals + 1 else bullish_signals
    let bearish_signals :=
      if 50 < rsi then bearish_signals
      else if rsi < 50 then bearish_signals + 1 else bearish_signals
    let p20 := prices.getD (prices.length - 20) 0
    let recent_change :=
      if p20 ≠ 0 then (current - p20) / p20 * 100 else 0
    let bullish_signals :=
      if 5 < recent_change then bullish_signals + 1 else bullish_signals
    let bearish_signals :=
      if 5 < recent_change then bearish_signals
      else if recent_change < -5 then bearish_signals + 1
      else bearish_signals
    if 3 ≤ bullish_signals then "bullish"
    else if 3 ≤ bearish_signals then "bearish"
    else "sideways"

/-! Specification-side reading of the four signals as a vote. -/
/-- The latest close (`prices[-1]`). -/
def trend_current (prices : List ℚ) : ℚ := prices.getD (prices.length - 1) 0

/-- The SMA-20 indicator value as the vote sees it. -/
def trend_sma20 (prices : List ℚ) : ℚ :=
  (sma_of 20 prices).getD (trend_current prices)

/-- The SMA-50 indicator value as the vote sees it. -/
def trend_sma50 (prices : List ℚ) : ℚ :=
  (sma_of 50 prices).getD (trend_current prices)

/-- The RSI indicator value as the vote sees it. -/
def trend_rsi (prices : List ℚ) : ℚ := (rsi_of prices).getD 50

/-- The 20-bar percent price change (`(current - prices[-20]) / prices[-20]
* 100`, 0 on a zero base). -/
def trend_change20 (prices : List ℚ) : ℚ :=
  let p20 := prices.getD (prices.length - 20) 0
  if p20 ≠ 0 then (trend_current prices - p20) / p20 * 100 else 0

/-- Number of bullish signals among the four. -/
def bullish_votes (prices : List ℚ) : ℕ :=
  (if trend_sma20 prices < trend_current prices then 1 else 0)
  + (if trend_sma50 prices < trend_current prices then 1 else 0)
  + (if 50 < trend_rsi prices then 1 else 0)
  + (if 5 < trend_change20 prices then 1 else 0)

/-- Number of bearish signals among the four. -/
def bearish_votes (prices : List ℚ) : ℕ :=
  (if trend_sma20 prices < trend_current prices then 0 else 1)
  + (if trend_sma50 prices < trend_current prices then 0 else 1)
  + (if 50 < trend_rsi prices then 0
     else if trend_rsi prices < 50 then 1 else 0)
  + (if 5 < trend_change20 prices then 0
     else if trend_change20 prices < -5 then 1 else 0)

/-- A 20-close series of identical closes. -/
def trendWitnessCloses : List ℚ :=
  [100, 100, 100, 100, 100, 100, 100, 100, 100, 100,
   100, 100, 100, 100, 100, 100, 100, 100, 100, 100]

/-! ### Peer resolution (`EquityResearchAgent.compare_peers` and
`EquityResearchAgent._get_default_peers`,
`src/backend/agents/equity_agent.py` lines 139-192 and 313-323). -/
/-- The static fallback table `peer_map`. -/
def peer_map (symbol : String) : Option (List String) :=
  if symbol = "AAPL" then some ["MSFT", "GOOGL", "META", "AMZN"]
  else if symbol = "MSFT" then some ["AAPL", "GOOGL", "ORCL", "CRM"]
  else if symbol = "GOOGL" then some ["META", "MSFT", "AMZN", "AAPL"]
  else if symbol = "AMZN" then some ["WMT", "EBAY", "SHOP", "TGT"]
  else if symbol = "TSLA" then some ["F", "GM", "RIVN", "NIO"]
  else none

def get_default_peers (symbol : String) : List String :=
  (peer_map symbol).getD ["SPY"]

/-- The peer list `compare_peers` uses for its fundamentals fetches and
returns in the `PeerComparison` (`peers[:4]`): the provider-supplied peers
of the upper-cased symbol when non-empty, else the fallback table entry,
else `["SPY"]`.  `provider_peers` is the value returned by
`market_service.get_peers`. -/
def compare_peers_peers (provider_peers : List String) (symbol : String) :
    List String :=
  let u := upper symbol
  let peers :=
    if provider_peers = [] then get_default_peers u else provider_peers
  peers.take 4

/-! ### Symbol handling across the equity operations
(`src/backend/agents/equity_agent.py`).

Each operation's market-data lookups, in call order, keyed by the symbol
argument each call receives in the source:
* `analyze` (lines 64-73) re-binds `symbol = symbol.upper()` and then calls
  `get_stock_price`, `get_fundamentals`, `get_historical_data` on it;
* `compare_peers` (lines 139-156) also upper-cases, calls `get_peers`, then
  fetches fundamentals for `[symbol] + peers[:4]`;
* `calculate_valuation` (lines 194-199) performs no upper-casing and calls
  `get_fundamentals` and `get_stock_price` on the symbol exactly as given. -/
def analyze_queried_symbols (symbol : String) : List String :=
  let s := upper symbol
  [s, s, s]

def compare_peers_queried_symbols (provider_peers : List String)
    (symbol : String) : List String :=
  let s := upper symbol
  s :: s :: compare_peers_peers provider_peers symbol

def calculate_valuation_queried_symbols (symbol : String) : List String :=
  [symbol, symbol]

/-! ### Valuation (`EquityResearchAgent.calculate_valuation`,
`src/backend/agents/equity_agent.py` lines 194-238).

`sqrtQ` stands for Python's `** 0.5` on the Graham product; the claims do
not depend on its values. -/
structure StockValuation where
  symbol : String
  current_price : ℚ
  pe_based : Option ℚ
  graham_number : Option ℚ
  average_fair_value : ℚ
  upside_potential : ℚ
  verdict : String

def calculate_valuation (getFund : String → Fundamentals)
    (getPrice : String → PriceData) (sqrtQ : ℚ → ℚ)
    (symbol : String) : StockValuation :=
  let fundamentals := getFund symbol
  let price_data := getPrice symbol
  let current_price := price_data.price.getD 0
  let eps := fundamentals.eps.getD 0
  let pe := fundamentals.pe.getD 0
  let pb := fundamentals.pb.getD 0
  let pe_based := if eps ≠ 0 ∧ pe ≠ 0 then some (eps * 20) else none
  let graham_number :=
    if eps ≠ 0 ∧ pb ≠ 0 then
      let book_value := if pb ≠ 0 then current_price / pb else 0
      some (if 0 < eps ∧ 0 < book_value then
        sqrtQ (45 / 2 * eps * book_value) else 0)
    else none
  let fair_values :=
    ([pe_based, graham_number].filterMap id).filter (fun v => 0 < v)
  let average_fair_value :=
    if fair_values ≠ [] then fair_values.sum / (fair_values.length : ℚ)
    else current_price
  let upside :=
    if current_price ≠ 0 then
      (average_fair_value - current_price) / current_price * 100
    else 0
  { symbol := symbol
    current_price := current_price
    pe_based := pe_based
    graham_number := graham_number
    average_fair_value := average_fair_value
    upside_potential := upside
    verdict :=
      if 15 < upside then "Undervalued"
      else if upside < -15 then "Overvalued"
      else "Fairly Valued" }

/-! ### Helper lemmas -/
lemma strContains_trans (a b c : String)
    (hab : strContains b a = true) (hbc : strContains c b = true) :
    strContains c a = true := by
  simp only [strContains, decide_eq_true_eq] at *
  exact hab.trans hbc

lemma add_to_memory_no_trim {α : Type} (m : List α) (e : α)
    (h : m.length + 1 ≤ 100) : add_to_memory m e = m ++ [e] := by
  simp only [add_to_memory]
  rw [if_neg]
  simp only [List.length_append, List.length_singleton]
  omega

lemma foldl_add_to_memory_no_trim {α : Type} :
    ∀ (es m : List α), m.length + es.length ≤ 100 →
      es.foldl add_to_memory m = m ++ es := by
  intro es
  induction es with
  | nil => intro m _; simp
  | cons e es ih =>
    intro m h
    simp only [List.length_cons] at h
    rw [List.foldl_cons, add_to_memory_no_trim m e (by omega), ih (m ++ [e])]
    · simp
    · simp only [List.length_append, List.length_singleton]; omega

/-- C3: agent memory is bounded with FIFO trimming: after every completed
`add_to_memory` call the memory holds at most 100 entries; whenever the
100-entry bound is exceeded the memory is trimmed to the most recent 50
entries; and starting from empty memory, 101 sequential `add_to_memory` calls
leave exactly the most recent 50 entries in their original relative order. -/
theorem memory_bound_fifo {α : Type} (m : List α) (e : α) (es : List α) :
    (add_to_memory m e).length ≤ 100
    ∧ (100 < m.length + 1 → (add_to_memory m e).length = 50)
    ∧ (es.length = 101 →
        es.foldl add_to_memory [] = es.drop 51 ∧ (es.drop 51).length = 50) := by
  refine ⟨?_, ?_, ?_⟩
  · simp only [add_to_memory]
    split
    · next h =>
      simp only [List.length_drop, List.length_append, List.length_singleton]
      omega
    · next h =>
      simp only [List.length_append, List.length_singleton] at *
      omega
  · intro hm
    simp only [add_to_memory]
    rw [if_pos]
    · simp only [List.length_drop, List.length_append, List.length_singleton]
      omega
    · simp only [List.length_append, List.length_singleton]
      omega
  · intro hlen
    rcases es.eq_nil_or_concat with rfl | ⟨as, b, rfl⟩
    · exact absurd hlen (by simp)
    · simp only [List.concat_eq_append] at hlen ⊢
      have has : as.length = 100 := by
        simp only [List.length_append, List.length_singleton] at hlen
        omega
      have hfold : (as ++ [b]).foldl add_to_memory [] = add_to_memory as b := by
        rw [List.foldl_append]
        rw [foldl_add_to_memory_no_trim as [] (by simp [has])]
        simp
      have htrim : add_to_memory as b = (as ++ [b]).drop 51 := by
        simp only [add_to_memory]
        rw [if_pos]
        · simp only [List.length_append, List.length_singleton, has]
        · simp only [List.length_append, List.length_singleton, has]
          omega
      refine ⟨by rw [hfold, htrim], ?_⟩
      simp only [List.length_drop, List.length_append, List.length_singleton,
        has]

/-- Witness for C3: the trim fires at 101 entries leaving 50, and 101
sequential additions from empty memory keep exactly the last 50 entries. -/
theorem memory_bound_fifo_witness :
    (add_to_memory (List.range 100) 0).length = 50
    ∧ (List.range 101).foldl add_to_memory [] = (List.range 101).drop 51 :=
  ⟨(memory_bound_fifo (List.range 100) 0 []).2.1 (by simp),
   ((memory_bound_fifo ([] : List ℕ) 0 (List.range 101)).2.2 (by simp)).1⟩

/-- C2: recommendation extraction scans the lower-cased analysis text for
keyword fragments in priority order: a text containing `"strong sell"` but not
`"strong buy"` yields `strong_sell` (regardless of any earlier `"buy"`), a
text containing `"strong buy"` yields `strong_buy`, and a text containing
neither `"buy"` nor `"sell"` yields the default `hold`. -/
theorem extract_recommendation_priority (t : String) :
    (strContains (lower t) "strong sell" = true →
     strContains (lower t) "strong buy" = false →
     extract_recommendation t = "strong_sell")
    ∧ (strContains (lower t) "strong buy" = true →
       extract_recommendation t = "strong_buy")
    ∧ (strContains (lower t) "buy" = false →
       strContains (lower t) "sell" = false →
       extract_recommendation t = "hold") := by
  refine ⟨?_, ?_, ?_⟩
  · intro hss hsb
    simp [extract_recommendation, hsb, hss]
  · intro hsb
    simp [extract_recommendation, hsb]
  · intro hb hs
    have hsb : strContains (lower t) "strong buy" = false := by
      cases h : strContains (lower t) "strong buy"
      · rfl
      · exact absurd (strContains_trans "buy" "strong buy" (lower t)
          (by decide) h) (by simp [hb])
    have hss : strContains (lower t) "strong sell" = false := by
      cases h : strContains (lower t) "strong sell"
      · rfl
      · exact absurd (strContains_trans "sell" "strong sell" (lower t)
          (by decide) h) (by simp [hs])
    simp [extract_recommendation, hsb, hss, hb, hs]

/-- C4: the equity confidence score (base 0.5 plus 0.1 per present
fundamentals field, capped at 1.0) always lies in `[0, 1]`, and the risk
agent's overall risk score is always clamped to `[1, 10]`, for every input. -/
theorem score_ranges (f : Fundamentals) (p : PriceData)
    (vol div_score : Option ℚ) (conc : Option String) :
    (0 ≤ calculate_confidence f p ∧ calculate_confidence f p ≤ 1)
    ∧ (1 ≤ calculate_risk_score vol div_score conc
       ∧ calculate_risk_score vol div_score conc ≤ 10) := by
  refine ⟨⟨?_, ?_⟩, ?_, ?_⟩
  · simp only [calculate_confidence]
    split_ifs <;> norm_num
  · simp only [calculate_confidence]
    split_ifs <;> norm_num
  · simp only [calculate_risk_score]
    exact le_max_left 1 _
  · simp only [calculate_risk_score]
    exact max_le (by norm_num) (min_le_left 10 _)

/-- C5: the target-price estimate equals
`round2 (current_price * (18 / pe))` whenever both the current price and the
P/E ratio are present and non-zero, and is `none` when either is missing or
zero. -/
theorem target_price_formula (p : PriceData) (f : Fundamentals) :
    (p.price.getD 0 ≠ 0 → f.pe.getD 0 ≠ 0 →
      estimate_target_price p f =
        some (round2 (p.price.getD 0 * (18 / f.pe.getD 0))))
    ∧ (p.price.getD 0 = 0 ∨ f.pe.getD 0 = 0 →
        estimate_target_price p f = none) := by
  constructor
  · intro hp hpe
    simp [estimate_target_price, hp, hpe]
  · intro h
    simp only [estimate_target_price]
    rw [if_pos h]

/-- Witness for C5: with price 100 and P/E 25 the target is exactly 72, and
with a missing price the target is absent. -/
theorem target_price_formula_witness :
    estimate_target_price ⟨some 100⟩ ⟨some 25, none, none, none, none⟩ =
      some 72
    ∧ estimate_target_price ⟨none⟩ ⟨some 25, none, none, none, none⟩ =
      none := by
  constructor
  · rw [(target_price_formula ⟨some 100⟩ ⟨some 25, none, none, none, none⟩).1
      (by decide) (by decide)]
    norm_num [round2, roundHalfEven]
  · exact (target_price_formula ⟨none⟩ ⟨some 25, none, none, none, none⟩).2
      (Or.inl rfl)

/-- Witness for C2: a text that mentions `buy` early but ends with an
upper-cased `STRONG SELL` is labelled `strong_sell`. -/
theorem extract_recommendation_priority_witness :
    extract_recommendation
      "Traders may buy dips, but our overall view is STRONG SELL" =
      "strong_sell" :=
  (extract_recommendation_priority
    "Traders may buy dips, but our overall view is STRONG SELL").1
    (by decide) (by decide)

lemma filterMap_toOption_map_ok {α : Type} (l : List α) :
    (l.map Outcome.ok).filterMap Outcome.toOption = l := by
  induction l with
  | nil => rfl
  | cons a l ih => simp [Outcome.toOption, ih]

/-- C1: when exactly one of the first-five holdings' equity analyses raises
and the news, market-overview, risk and health calls all complete without
raising (with non-empty payloads), `analyze_portfolio` still returns a
composite report whose `holdings_analysis` contains the other four results in
launch order, with non-empty news/market/risk/health sections. -/
theorem analyze_portfolio_partial_failure {α : Type} (symbols : List String)
    (equity : String → Outcome α) (n m r h : Dictionary)
    (pre post : List α)
    (hmap : (symbols.take 5).map equity =
      pre.map Outcome.ok ++ Outcome.exn :: post.map Outcome.ok)
    (hfive : (symbols.take 5).length = 5)
    (hn : n ≠ []) (hm : m ≠ []) (hr : r ≠ []) (hh : h ≠ []) :
    (analyze_portfolio symbols equity (.ok n) (.ok m) (.ok r)
        (.ok h)).holdings_analysis = pre ++ post
    ∧ (pre ++ post).length = 4
    ∧ (analyze_portfolio symbols equity (.ok n) (.ok m) (.ok r)
        (.ok h)).news_summary = n
    ∧ (analyze_portfolio symbols equity (.ok n) (.ok m) (.ok r)
        (.ok h)).market_overview = m
    ∧ (analyze_portfolio symbols equity (.ok n) (.ok m) (.ok r)
        (.ok h)).risk_assessment = r
    ∧ (analyze_portfolio symbols equity (.ok n) (.ok m) (.ok r)
        (.ok h)).portfolio_health = h
    ∧ n ≠ [] ∧ m ≠ [] ∧ r ≠ [] ∧ h ≠ [] := by
  have hlen : pre.length + 1 + post.length = 5 := by
    have := congrArg List.length hmap
    simp only [List.length_map, List.length_append, List.length_cons,
      hfive] at this
    omega
  refine ⟨?_, by simp only [List.length_append]; omega, rfl, rfl, rfl, rfl,
    hn, hm, hr, hh⟩
  simp only [analyze_portfolio, hmap, List.filterMap_append,
    filterMap_toOption_map_ok, List.filterMap_cons]
  simp [Outcome.toOption, filterMap_toOption_map_ok]

/-- Witness for C1: five holdings `A`-`E` where the analysis of `C` raises;
the report keeps the other four in launch order and all four sections. -/
theorem analyze_portfolio_partial_failure_witness :
    (analyze_portfolio ["A", "B", "C", "D", "E"]
        (fun s => if s = "C" then .exn else .ok s)
        (.ok [("sentiment", "neutral")]) (.ok [("indices", "flat")])
        (.ok [("risk_score", "5")])
        (.ok [("health_score", "70")])).holdings_analysis =
      ["A", "B", "D", "E"]
    ∧ (analyze_portfolio ["A", "B", "C", "D", "E"]
        (fun s => if s = "C" then .exn else .ok s)
        (.ok [("sentiment", "neutral")]) (.ok [("indices", "flat")])
        (.ok [("risk_score", "5")])
        (.ok [("health_score", "70")])).news_summary =
      [("sentiment", "neutral")] := by
  have h := analyze_portfolio_partial_failure ["A", "B", "C", "D", "E"]
    (fun s => if s = "C" then .exn else .ok s)
    [("sentiment", "neutral")] [("indices", "flat")]
    [("risk_score", "5")] [("health_score", "70")]
    ["A", "B"] ["D", "E"] (by decide) (by decide)
    (by decide) (by decide) (by decide) (by decide)
  exact ⟨h.1, h.2.2.1⟩

/-- C10: if any of the sequentially awaited news, market-overview, risk or
health calls raises, the returned composite report has empty defaults for
every section — including an empty `holdings_analysis` that discards equity
analyses that had already succeeded — while the request still returns a
report (the embedding is a total function) rather than propagating. -/
theorem analyze_portfolio_fail_open {α : Type} (symbols : List String)
    (equity : String → Outcome α)
    (news market risk health : Outcome Dictionary)
    (hfail : news = .exn ∨ market = .exn ∨ risk = .exn ∨ health = .exn) :
    analyze_portfolio symbols equity news market risk health =
      { holdings_analysis := []
        news_summary := []
        market_overview := []
        risk_assessment := []
        portfolio_health := [] } := by
  cases news <;> cases market <;> cases risk <;> cases health <;>
    simp_all [analyze_portfolio]

/-- Witness for C10: all five equity analyses succeed but the news call
raises; the report nevertheless comes back with every section empty. -/
theorem analyze_portfolio_fail_open_witness :
    analyze_portfolio ["A", "B", "C", "D", "E"]
        (fun s => Outcome.ok s) .exn (.ok [("indices", "flat")])
        (.ok [("risk_score", "5")]) (.ok [("health_score", "70")]) =
      { holdings_analysis := []
        news_summary := []
        market_overview := []
        risk_assessment := []
        portfolio_health := [] } :=
  analyze_portfolio_fail_open ["A", "B", "C", "D", "E"]
    (fun s => Outcome.ok s) .exn (.ok [("indices", "flat")])
    (.ok [("risk_score", "5")]) (.ok [("health_score", "70")])
    (Or.inl rfl)

/-- C6: for a portfolio with positive total value the diversification
assessment classifies by HHI (sum of squared percentage weights) with strict
cutoffs: HHI < 1000 is `well_diversified` with score 9, 1000 ≤ HHI < 2500 is
`moderately_diversified` with score 6, and HHI ≥ 2500 — including the
boundary value 2500 produced by four equal-weight holdings — is
`concentrated` with score 3. -/
theorem hhi_diversification_classes (holdings : List (Option ℚ))
    (total_value : ℚ) (_hpos : 0 < total_value) :
    (portfolio_hhi holdings total_value < 1000 →
      (assess_diversification holdings total_value).diversification_level =
        "well_diversified"
      ∧ (assess_diversification holdings total_value).diversification_score
        = 9)
    ∧ (1000 ≤ portfolio_hhi holdings total_value →
       portfolio_hhi holdings total_value < 2500 →
      (assess_diversification holdings total_value).diversification_level =
        "moderately_diversified"
      ∧ (assess_diversification holdings total_value).diversification_score
        = 6)
    ∧ (2500 ≤ portfolio_hhi holdings total_value →
      (assess_diversification holdings total_value).diversification_level =
        "concentrated"
      ∧ (assess_diversification holdings total_value).diversification_score
        = 3) := by
  refine ⟨?_, ?_, ?_⟩
  · intro h1
    simp only [assess_diversification]
    rw [if_pos h1]
    exact ⟨rfl, rfl⟩
  · intro h1 h2
    simp only [assess_diversification]
    rw [if_neg (by linarith), if_pos h2]
    exact ⟨rfl, rfl⟩
  · intro h1
    simp only [assess_diversification]
    rw [if_neg (by linarith), if_neg (by linarith)]
    exact ⟨rfl, rfl⟩

/-- Witness for C6: four equal-weight holdings (25% each of a 100-value
portfolio) give HHI exactly 2500 and are classified `concentrated` with
score 3, while a portfolio with HHI exactly 2499 is
`moderately_diversified` with score 6. -/
theorem hhi_diversification_classes_witness :
    portfolio_hhi [some 25, some 25, some 25, some 25] 100 = 2500
    ∧ (assess_diversification [some 25, some 25, some 25, some 25]
        100).diversification_level = "concentrated"
    ∧ (assess_diversification [some 25, some 25, some 25, some 25]
        100).diversification_score = 3
    ∧ portfolio_hhi [some 49, some 7, some 7] 100 = 2499
    ∧ (assess_diversification [some 49, some 7, some 7]
        100).diversification_level = "moderately_diversified"
    ∧ (assess_diversification [some 49, some 7, some 7]
        100).diversification_score = 6 := by
  have h4 : portfolio_hhi [some 25, some 25, some 25, some 25] 100 = 2500 := by
    norm_num [portfolio_hhi]
  have h3 : portfolio_hhi [some 49, some 7, some 7] 100 = 2499 := by
    norm_num [portfolio_hhi]
  have hc := (hhi_diversification_classes
    [some 25, some 25, some 25, some 25] 100 (by norm_num)).2.2
    (by rw [h4])
  have hm := (hhi_diversification_classes
    [some 49, some 7, some 7] 100 (by norm_num)).2.1
    (by rw [h3]; norm_num) (by rw [h3]; norm_num)
  exact ⟨h4, hc.1, hc.2, h3, hm.1, hm.2⟩

set_option maxHeartbeats 1600000 in
/-- C7: for at least 20 closes, the trend classification is exactly the
4-signal majority vote (price vs SMA-20, price vs SMA-50, RSI vs 50, 20-bar
change vs ±5%): `bullish` iff 3+ bullish signals, `bearish` iff 3+ bearish
signals, `sideways` otherwise; with fewer than 20 samples it is always
`sideways`. -/
theorem trend_majority_vote (closes : List ℚ) :
    (closes.length < 20 →
      determine_trend closes (calculate_indicators closes) = "sideways")
    ∧ (20 ≤ closes.length →
      ((determine_trend closes (calculate_indicators closes) = "bullish"
          ↔ 3 ≤ bullish_votes closes)
       ∧ (determine_trend closes (calculate_indicators closes) = "bearish"
          ↔ 3 ≤ bearish_votes closes)
       ∧ (determine_trend closes (calculate_indicators closes) = "sideways"
          ↔ bullish_votes closes < 3 ∧ bearish_votes closes < 3))) := by
  constructor
  · intro h
    simp only [determine_trend]
    rw [if_pos h]
  · intro h
    simp only [determine_trend, calculate_indicators, bullish_votes,
      bearish_votes, trend_sma20, trend_sma50, trend_rsi, trend_current,
      trend_change20]
    rw [if_neg (by omega)]
    split_ifs <;> simp_all

/-- Witness for C7: an empty series is `sideways`, and a perfectly flat
20-close series has 3 bearish signals (price not above SMA-20 nor the
defaulted SMA-50, RSI 0 below 50; the 20-bar change of 0% votes neither
way) and is classified `bearish`. -/
theorem trend_majority_vote_witness :
    determine_trend [] (calculate_indicators []) = "sideways"
    ∧ determine_trend trendWitnessCloses
        (calculate_indicators trendWitnessCloses) = "bearish" :=
  ⟨(trend_majority_vote []).1 (by decide),
   ((trend_majority_vote trendWitnessCloses).2
       (by norm_num [trendWitnessCloses])).2.1.mpr
     (by norm_num [bearish_votes, trend_sma20, trend_sma50, trend_rsi,
       trend_current, trend_change20, sma_of, rsi_of, round2, roundHalfEven,
       trendWitnessCloses, List.filter, List.getD])⟩

/-- Counterexample for C8: for the queried symbol `SPY` with no
provider-supplied peers, the resolved peer list is the `["SPY"]` default,
which contains the queried symbol itself. -/
theorem peer_list_self_counterexample :
    "SPY" ∈ compare_peers_peers [] "SPY"
    ∧ compare_peers_peers [] "SPY" = ["SPY"] := by
  constructor <;> decide

lemma not_mem_default_peers (u : String) (hne : u ≠ "SPY") :
    u ∉ (get_default_peers u).take 4 := by
  simp only [get_default_peers, peer_map]
  split_ifs with h1 h2 h3 h4 h5
  · rw [h1]; decide
  · rw [h2]; decide
  · rw [h3]; decide
  · rw [h4]; decide
  · rw [h5]; decide
  · simpa using hne

/-- C8 (amended): the peer list used and returned by `compare_peers` never
exceeds 4 entries, and when the peers come from the fallback path (empty
provider result) the list excludes the queried symbol *provided* the
upper-cased symbol is not `SPY` itself; for symbol `SPY` the final default
is exactly `["SPY"]`.  Provider-supplied peer lists are used unfiltered. -/
theorem peer_list_bounds (provider_peers : List String) (symbol : String) :
    (compare_peers_peers provider_peers symbol).length ≤ 4
    ∧ (provider_peers = [] → upper symbol ≠ "SPY" →
        upper symbol ∉ compare_peers_peers provider_peers symbol) := by
  constructor
  · simp only [compare_peers_peers]
    exact List.length_take_le 4 _
  · intro hpp hne
    subst hpp
    have hres : compare_peers_peers [] symbol =
        (get_default_peers (upper symbol)).take 4 := by
      simp [compare_peers_peers]
    rw [hres]
    exact not_mem_default_peers (upper symbol) hne

/-- Witness for C8 (amended): for `aapl` with no provider peers, the
resolved fallback list has at most 4 entries and excludes `AAPL`. -/
theorem peer_list_bounds_witness :
    (compare_peers_peers [] "aapl").length ≤ 4
    ∧ upper "aapl" ∉ compare_peers_peers [] "aapl" :=
  ⟨(peer_list_bounds [] "aapl").1,
   (peer_list_bounds [] "aapl").2 rfl (by decide)⟩

/-- Counterexample for C9: a lower-case symbol and its upper-case form do
not produce the same data lookups in `calculate_valuation`, which never
upper-cases its symbol argument. -/
theorem symbol_case_counterexample :
    calculate_valuation_queried_symbols "aapl" ≠
      calculate_valuation_queried_symbols "AAPL" := by
  decide

/-- C9 (amended): `analyze` and `compare_peers` upper-case the symbol before
every data lookup (case-insensitive inputs produce identical lookups, all
keyed by the upper-cased symbol), but `calculate_valuation` performs its
lookups — and records its result symbol — with the symbol exactly as
given, without upper-casing. -/
theorem symbol_uppercasing (s t : String) (provider_peers : List String)
    (h : upper s = upper t) :
    analyze_queried_symbols s = analyze_queried_symbols t
    ∧ compare_peers_queried_symbols provider_peers s =
        compare_peers_queried_symbols provider_peers t
    ∧ (∀ q ∈ analyze_queried_symbols s, q = upper s)
    ∧ calculate_valuation_queried_symbols s = [s, s]
    ∧ (∀ gf gp sq, (calculate_valuation gf gp sq s).symbol = s) := by
  refine ⟨?_, ?_, ?_, rfl, fun gf gp sq => rfl⟩
  · simp [analyze_queried_symbols, h]
  · simp [compare_peers_queried_symbols, compare_peers_peers, h]
  · intro q hq
    simp only [analyze_queried_symbols, List.mem_cons,
      List.not_mem_nil, or_false] at hq
    rcases hq with rfl | rfl | rfl <;> rfl

/-- Witness for C9 (amended): `aapl` and `AAPL` produce identical equity
`analyze` lookups, while `calculate_valuation` keeps `aapl` verbatim. -/
theorem symbol_uppercasing_witness :
    analyze_queried_symbols "aapl" = analyze_queried_symbols "AAPL"
    ∧ calculate_valuation_queried_symbols "aapl" = ["aapl", "aapl"] :=
  ⟨(symbol_uppercasing "aapl" "AAPL" [] (by decide)).1,
   (symbol_uppercasing "aapl" "AAPL" [] (by decide)).2.2.2.1⟩
